import Mathlib

/-!
Verification development for the Project-Raven Tailscale add-on scripts.

The Python sources embedded here:
  * `archive/libreelec-tailscale-addon/source/default.py` — class
    `TailscaleService` (daemon start, liveness probe, status probe,
    authentication, stop, and the 30-second supervisor loop);
  * `configurations/addons/service.tailscale-config/service.py` — class
    `TailscaleConfigService` (`apply_settings`, which builds and logs a
    `tailscale up` command line);
  * `libreelec-custom-build/.../setup-wizard/source/default.py` — class
    `RavenSetupWizard` (`save_config`).

Python strings are modelled as Lean `String`; Python truthiness of a string
is emptiness; Python exceptions are an explicit `Except` channel, with
`try/except` blocks translated to `match` on that channel.  Results of
`subprocess` calls (exit code, stdout, stderr, whether `Popen` survived)
are oracles supplied through environment records, since they depend on the
outside world.  Observable side effects (log lines, notifications, spawned
or executed commands) are collected as explicit action traces.
-/

/-- Python `str.strip`, modelled on the character list so that everything
reduces in the kernel. -/
def pyStrip (s : String) : String :=
  ⟨((s.data.dropWhile Char.isWhitespace).reverse.dropWhile Char.isWhitespace).reverse⟩

/-- Python `a or b` on strings: `b` when `a` is falsy (empty), else `a`. -/
def pyOrStr (a b : String) : String := if a = "" then b else a

/-- Python space-join of a list of strings. -/
def joinSp : List String → String
  | [] => ""
  | [x] => x
  | x :: y :: rest => x ++ " " ++ joinSp (y :: rest)

/-- Does `needle` occur as a contiguous sublist of the second argument? -/
def charsInfixOf (needle : List Char) : List Char → Bool
  | [] => needle.isEmpty
  | c :: rest => needle.isPrefixOf (c :: rest) || charsInfixOf needle rest

/-- `needle in haystack` on Python strings (substring containment). -/
def containsSub (haystack needle : String) : Bool :=
  charsInfixOf needle.data haystack.data

/-- Python `s.startswith(p)`. -/
def pyStartsWith (s p : String) : Bool := p.data.isPrefixOf s.data

/-- Python `repr`/f-string rendering of a `bool`. -/
def pyBoolRepr (b : Bool) : String := if b then "True" else "False"

/-- `os.path.join(a, b)` for the relative second components used here. -/
def pathJoin (a b : String) : String := a ++ "/" ++ b

/-- A Python exception value, as coarse as the claims need. -/
inductive PyExn where
  | timeoutExpired
  | jsonDecodeError
  | other (msg : String)
deriving DecidableEq, Repr

/-- The triple captured from `subprocess.run(..., capture_output=True)`. -/
structure RunResult where
  returncode : Int
  stdout : String
  stderr : String
deriving DecidableEq, Repr

/-! ## Paths and settings of `TailscaleService` (default.py) -/

/-- Runtime paths computed in `TailscaleService.__init__` from the add-on
install/profile directories (lines 19–33 of default.py). -/
structure Paths where
  tailscaled_bin : String
  tailscale_bin : String
  state_dir : String
deriving DecidableEq, Repr

/-- The add-on settings read through `self.addon.getSetting` in default.py.
Kodi returns every setting as a string. -/
structure Settings where
  daemon_port : String
  auto_login : String
  auth_key : String
  accept_routes : String
  accept_dns : String
  hostname : String
deriving DecidableEq, Repr

/-- The argv list built in `start_tailscaled` (default.py lines 50–55).
The last element is literally
`--port= + self.addon.getSetting(daemon_port) or 41641` (Python),
in which the concatenation binds tighter than `or`. -/
def startCmd (p : Paths) (s : Settings) : List String :=
  [p.tailscaled_bin,
   "--state=" ++ pathJoin p.state_dir "tailscaled.state",
   "--socket=" ++ pathJoin p.state_dir "tailscaled.sock",
   pyOrStr ("--port=" ++ s.daemon_port) "41641"]

/-! ## `stop_tailscale` (default.py lines 179–188)

The handle state distinguishes: no `tailscaled_process` stored, a stored
process that already exited (`poll()` not `None`), and a live process.  For
a live process the oracle `exitsInTime` says whether `wait(timeout=10)`
returns before the timeout.  The whole body sits in `try: ... except: pass`,
so the exception channel of the translation is always `none`. -/

inductive ProcState where
  | noProcess
  | exited
  | running (exitsInTime : Bool)
deriving DecidableEq, Repr

inductive StopAction where
  | terminate
  | wait
  | kill
  | logStopped
deriving DecidableEq, Repr

/-- `TailscaleService.stop_tailscale`: result state, performed actions, and
the uncaught-exception channel (always `none`: bare `except: pass`). -/
def stop_tailscale : ProcState → ProcState × List StopAction × Option PyExn
  | .noProcess => (.noProcess, [], none)
  | .exited => (.exited, [], none)
  | .running exitsInTime =>
    if exitsInTime then
      (.exited, [.terminate, .wait, .logStopped], none)
    else
      -- wait(timeout=10) raises TimeoutExpired, swallowed by `except: pass`;
      -- the child was signalled but is still alive, and no kill is sent.
      (.running false, [.terminate, .wait], none)

/-! ## `RavenSetupWizard.save_config` (setup wizard, lines 242–263) -/

/-- A JSON-serialisable value as used by `save_config`. -/
inductive PyVal where
  | str (s : String)
  | bool (b : Bool)
deriving DecidableEq, Repr

/-- The `self.config` dictionary of `RavenSetupWizard`. -/
structure WizardConfig where
  jellyfin_server : String
  jellyfin_username : String
  jellyfin_password : String
  tailscale_authkey : String
  device_hostname : String
deriving DecidableEq, Repr

/-- `RavenSetupWizard.save_config`: the key/value pairs dumped to
`/storage/.config/raven-config.json` (the `safe_config` dict), in insertion
order.  `date` stands for the `time.strftime` timestamp. -/
def save_config (c : WizardConfig) (date : String) : List (String × PyVal) :=
  [("jellyfin_server", .str c.jellyfin_server),
   ("jellyfin_username", .str c.jellyfin_username),
   ("device_hostname", .str c.device_hostname),
   ("setup_completed", .bool true),
   ("setup_date", .str date)]

/-! ## `get_tailscale_status` (default.py lines 89–102)

`json.loads(result.stdout)` yields an arbitrary Python object; the code
only ever asks for its truthiness (`if not status`) and for
`status.get(BackendState)`, so the parsed value is abstracted to those
two observations. -/

/-- Abstraction of the object returned by `json.loads` on the status
output: its truthiness and its `BackendState` entry (`None` when the key
is absent or the value is not a dict with that key). -/
structure PyStatus where
  truthy : Bool
  backendState : Option String
deriving DecidableEq, Repr

/-- Oracles for the two fallible operations inside `get_tailscale_status`:
the `subprocess.run` of `tailscale ... status --json` (which may raise,
e.g. `TimeoutExpired`) and `json.loads` on its stdout (which raises
`JSONDecodeError` on malformed input). -/
structure StatusEnv where
  runStatus : Except PyExn RunResult
  jsonLoads : String → Except PyExn PyStatus

/-- The body of the `try:` block of `get_tailscale_status`: run the status
command; on exit code 0 parse stdout, otherwise return `None`. -/
def get_tailscale_status_body (env : StatusEnv) : Except PyExn (Option PyStatus) := do
  let res ← env.runStatus
  if res.returncode = 0 then
    let v ← env.jsonLoads res.stdout
    pure (some v)
  else
    pure none

/-- `TailscaleService.get_tailscale_status`: the `except Exception` clause
turns every raised exception into a logged debug line and `None`, so the
function always returns and never propagates an exception. -/
def get_tailscale_status (env : StatusEnv) : Option PyStatus :=
  match get_tailscale_status_body env with
  | .ok v => v
  | .error _ => none

/-! ## `login` and `authenticate_if_needed` (default.py lines 104–162) -/

/-- An observable side effect of the service code. -/
inductive Effect where
  | logMsg (msg : String)
  | runCall (cmd : List String)
  | spawn (cmd : List String)
  | notify (title msg : String)
deriving DecidableEq, Repr

/-- Environment of `authenticate_if_needed`/`login`: the settings snapshot,
the paths, the status-probe oracles and the result of the
`subprocess.run(cmd, ..., timeout=60)` performed by `login`. -/
structure Env where
  paths : Paths
  settings : Settings
  statusEnv : StatusEnv
  runUp : Except PyExn RunResult

/-- The argv list built in `login` (default.py lines 123–144). -/
def loginCmd (p : Paths) (s : Settings) : List String :=
  let cmd := [p.tailscale_bin,
              "--socket=" ++ pathJoin p.state_dir "tailscaled.sock",
              "up"]
  let cmd := if s.auth_key != "" && pyStrip s.auth_key != "" then
               cmd ++ ["--authkey", pyStrip s.auth_key]
             else cmd
  let cmd := if s.accept_routes = "true" then cmd ++ ["--accept-routes"] else cmd
  let cmd := if s.accept_dns = "true" then cmd ++ ["--accept-dns"] else cmd
  if s.hostname != "" then cmd ++ ["--hostname", s.hostname] else cmd

/-- The redacted command list whose join is logged by `login` (line 146):
the list comprehension keeping only the elements that do not start with `tskey-`. -/
def loginRedactedArgv (p : Paths) (s : Settings) : List String :=
  (loginCmd p s).filter (fun c => !pyStartsWith c "tskey-")

/-- `TailscaleService.login`: returns the Python return value and the trace
of side effects, in program order.  The `subprocess.run` call is recorded
as `Effect.runCall` whether or not it raises (a `TimeoutExpired` still
invoked the command). -/
def login (env : Env) : Bool × List Effect :=
  let p := env.paths
  let s := env.settings
  let cmd := loginCmd p s
  let keyLog : List Effect :=
    if s.auth_key != "" && pyStrip s.auth_key != "" then
      [.logMsg "[Tailscale] Using auth key for authentication"]
    else []
  let cmdLog : Effect :=
    .logMsg ("[Tailscale] Logging in with command: " ++ joinSp (loginRedactedArgv p s))
  match env.runUp with
  | .error e =>
    (false, keyLog ++ [cmdLog, .runCall cmd,
                       .logMsg ("[Tailscale] Error during login: " ++ reprStr e)])
  | .ok res =>
    if res.returncode = 0 then
      (true, keyLog ++ [cmdLog, .runCall cmd,
                        .logMsg "[Tailscale] Login successful",
                        .notify "Tailscale" "Connected successfully"])
    else
      (false, keyLog ++ [cmdLog, .runCall cmd,
                         .logMsg ("[Tailscale] Login failed: " ++ res.stderr)] ++
              (if containsSub res.stderr "visit the admin console" then
                 [.notify "Tailscale Authentication Required"
                    "Please run tailscale up manually or check addon settings"]
               else []))

/-- The notification emitted by `show_auth_notification`. -/
def authNotifyAction : Effect :=
  .notify "Tailscale Authentication Required"
    "Please run tailscale up manually or check addon settings"

/-- `TailscaleService.authenticate_if_needed`: probe the status, then act
on `BackendState`.  Note the branch condition is the `auto_login` setting,
independent of whether an auth key is configured. -/
def authenticate_if_needed (env : Env) : List Effect :=
  match get_tailscale_status env.statusEnv with
  | none =>
    [.logMsg "[Tailscale] Cannot get status, daemon may not be running"]
  | some st =>
    if !st.truthy then
      [.logMsg "[Tailscale] Cannot get status, daemon may not be running"]
    else if st.backendState = some "NeedsLogin" then
      if env.settings.auto_login = "true" then (login env).2
      else
        [.logMsg "[Tailscale] Authentication needed but auto_login disabled",
         authNotifyAction]
    else []

/-- Number of `subprocess.run` invocations of the `tailscale ... up`
command in a trace (the call-count assertion of the spec). -/
def loginInvocations (acts : List Effect) : Nat :=
  acts.countP (fun a => match a with | .runCall _ => true | _ => false)

/-! ## `start_tailscaled` (default.py lines 41–78) and one iteration of the
`run` loop (lines 206–216) -/

/-- `TailscaleService.start_tailscaled`.  `aliveNow` is the result of the
internal `is_tailscaled_running()` check; `spawn` is the outcome of
`subprocess.Popen` followed by the two-second grace sleep: `.error` when
`Popen` itself raises, `.ok survives` with `survives` the truth of
`poll() is None` afterwards.  Returns the Python return value and the
effect trace. -/
def start_tailscaled (p : Paths) (s : Settings) (aliveNow : Bool)
    (spawn : Except PyExn Bool) : Bool × List Effect :=
  if aliveNow then
    (true, [.logMsg "[Tailscale] tailscaled already running"])
  else
    let cmd := startCmd p s
    let startLog : Effect := .logMsg ("[Tailscale] Starting tailscaled: " ++ joinSp cmd)
    match spawn with
    | .error e =>
      (false, [startLog, .logMsg ("[Tailscale] Error starting tailscaled: " ++ reprStr e)])
    | .ok survives =>
      if survives then
        (true, [startLog, .spawn cmd, .logMsg "[Tailscale] tailscaled started successfully"])
      else
        (false, [startLog, .spawn cmd, .logMsg "[Tailscale] tailscaled failed to start"])

/-- Everything one iteration of the `while not self.monitor.abortRequested()`
loop observes from the outside world. -/
structure TickEnv where
  paths : Paths
  settings : Settings
  /-- result of `self.monitor.waitForAbort(30)` -/
  abortOnWait : Bool
  /-- result of `is_tailscaled_running()` at the top of the tick -/
  alive : Bool
  /-- result of the `is_tailscaled_running()` check inside `start_tailscaled` -/
  aliveInStart : Bool
  /-- outcome of `subprocess.Popen` + grace wait inside `start_tailscaled` -/
  spawn : Except PyExn Bool
  /-- oracles for the `authenticate_if_needed()` call of this tick -/
  statusEnv : StatusEnv
  runUp : Except PyExn RunResult

/-- Result of one loop iteration of `TailscaleService.run`. -/
structure TickOut where
  /-- the `break` was taken, i.e. the loop exits after this tick -/
  exitLoop : Bool
  /-- number of `start_tailscaled()` invocations made during the tick -/
  startCalls : Nat
  /-- return value of `start_tailscaled`, which the loop body ignores -/
  restartResult : Option Bool
  /-- side effects of the tick, in program order -/
  effects : List Effect
deriving Repr

/-- One iteration of the main monitoring loop (default.py lines 206–216):
wait 30 s (break on abort); if the daemon is gone, log, call
`start_tailscaled()` once — discarding its result — sleep, and call
`authenticate_if_needed()`; otherwise do nothing. -/
def runTick (t : TickEnv) : TickOut :=
  if t.abortOnWait then
    ⟨true, 0, none, []⟩
  else if !t.alive then
    let (ok, acts) := start_tailscaled t.paths t.settings t.aliveInStart t.spawn
    ⟨false, 1, some ok,
     [.logMsg "[Tailscale] Daemon died, restarting"] ++ acts ++
       authenticate_if_needed ⟨t.paths, t.settings, t.statusEnv, t.runUp⟩⟩
  else
    ⟨false, 0, none, []⟩

/-! ## `TailscaleConfigService.apply_settings` (service.py lines 33–98) -/

/-- The settings read through `getSettingBool`/`getSettingString` in
`apply_settings` (service.py lines 35–41); string settings are stripped at
the read site. -/
structure ConfigSettings where
  enabled : Bool
  authkey : String
  accept_routes : Bool
  exit_node : String
  hostname : String
  advertise_routes : String
  ssh_enabled : Bool
deriving DecidableEq, Repr

/-- The `cmd_parts` list built in `apply_settings` (service.py lines 62–78).
The auth key is embedded verbatim as `--authkey=<key>`. -/
def applyCmdParts (s : ConfigSettings) : List String :=
  let authkey := pyStrip s.authkey
  let parts := ["/storage/.kodi/addons/service.tailscale/bin/tailscale", "up",
                "--authkey=" ++ authkey]
  let parts := if s.accept_routes then parts ++ ["--accept-routes"] else parts
  let parts := if pyStrip s.exit_node != "" then
                 parts ++ ["--exit-node=" ++ pyStrip s.exit_node]
               else parts
  let parts := if pyStrip s.hostname != "" then
                 parts ++ ["--hostname=" ++ pyStrip s.hostname]
               else parts
  let parts := if pyStrip s.advertise_routes != "" then
                 parts ++ ["--advertise-routes=" ++ pyStrip s.advertise_routes]
               else parts
  if s.ssh_enabled then parts ++ ["--ssh"] else parts

/-- `TailscaleConfigService.apply_settings`, observed through its log sink
(each entry is one `self.log(...)` message).  `runner` is the oracle for
`run_command`: `(success, stdout, stderr)` for the given shell command
string.  The `systemctl` invocations produce no log lines and are omitted
from the sink. -/
def apply_settings_logs (s : ConfigSettings)
    (runner : String → Bool × String × String) : List String :=
  let authkey := pyStrip s.authkey
  let hdr := "Applying settings - Enabled: " ++ pyBoolRepr s.enabled ++
             ", Has authkey: " ++ pyBoolRepr (authkey != "")
  if !s.enabled || authkey = "" then
    [hdr, "Disabling Tailscale service"]
  else
    let cmd := joinSp (applyCmdParts s)
    let res := runner cmd
    [hdr, "Enabling Tailscale service", "Running: " ++ cmd] ++
      (if res.1 then ["Tailscale configured successfully"]
       else ["Tailscale configuration failed: " ++ res.2.2])

/-! ## Concrete fixtures used by counterexamples and witnesses -/

/-- Representative install paths for `TailscaleService`. -/
def pathsX : Paths :=
  ⟨"/storage/.kodi/addons/service.tailscale/bin/tailscaled",
   "/storage/.kodi/addons/service.tailscale/bin/tailscale",
   "/storage/.kodi/userdata/addon_data/service.tailscale/tailscale-state"⟩

/-- Status oracle: the probe succeeds and reports `BackendState = NeedsLogin`. -/
def needsLoginStatusEnv : StatusEnv :=
  ⟨.ok ⟨0, "status-json", ""⟩, fun _ => .ok ⟨true, some "NeedsLogin"⟩⟩

/-- Status oracle: the probe succeeds and reports `BackendState = Running`. -/
def runningStatusEnv : StatusEnv :=
  ⟨.ok ⟨0, "status-json", ""⟩, fun _ => .ok ⟨true, some "Running"⟩⟩

/-- Status oracle: the status command exits 0 but its stdout is malformed
JSON, so `json.loads` raises. -/
def malformedStatusEnv : StatusEnv :=
  ⟨.ok ⟨0, "\x7bnot valid", ""⟩, fun _ => .error .jsonDecodeError⟩

/-- Settings with `auto_login = true` and no auth key configured. -/
def autoNoKeySettings : Settings := ⟨"", "true", "", "", "", ""⟩

/-- Settings with `auto_login = false` (and no auth key). -/
def manualSettings : Settings := ⟨"", "false", "", "", "", ""⟩

/-- Settings carrying the auth key `tskey-abc123`. -/
def tskeySettings : Settings := ⟨"", "true", "tskey-abc123", "", "", ""⟩

/-- Environment: daemon reports `NeedsLogin`, `auto_login` on, no auth key;
the `tailscale up` invocation succeeds. -/
def needsLoginNoKeyEnv : Env := ⟨pathsX, autoNoKeySettings, needsLoginStatusEnv, .ok ⟨0, "", ""⟩⟩

/-- Environment: daemon reports `Running`. -/
def runningEnv : Env := ⟨pathsX, autoNoKeySettings, runningStatusEnv, .ok ⟨0, "", ""⟩⟩

/-- Environment: daemon reports `NeedsLogin` and `auto_login` is off. -/
def manualAuthEnv : Env := ⟨pathsX, manualSettings, needsLoginStatusEnv, .ok ⟨0, "", ""⟩⟩

/-- A poll tick that finds the daemon dead and whose restart succeeds. -/
def tickDead : TickEnv :=
  ⟨pathsX, autoNoKeySettings, false, false, false, .ok true, needsLoginStatusEnv, .ok ⟨0, "", ""⟩⟩

/-- A poll tick that finds the daemon dead and whose restart fails (the
respawned process dies within the grace window). -/
def tickFailedRestart : TickEnv :=
  ⟨pathsX, autoNoKeySettings, false, false, false, .ok false, needsLoginStatusEnv, .ok ⟨0, "", ""⟩⟩

/-- Config-service settings: enabled, auth key `tskey-abc123`, all other
options off/empty. -/
def leakCfg : ConfigSettings := ⟨true, "tskey-abc123", false, "", "", "", false⟩

/-- `run_command` oracle for the config service: every command succeeds. -/
def okRunner : String → Bool × String × String := fun _ => (true, "", "")

/-! ## Theorems -/

/-- Helper: a string starting with the seven characters of the port flag is
never empty. -/
theorem append_port_ne_empty (x : String) : "--port=" ++ x ≠ "" := by
  intro h
  have hl : ("--port=" ++ x).length = ("" : String).length := congrArg String.length h
  rw [String.length_append] at hl
  have h7 : ("--port=" : String).length = 7 := rfl
  have h0 : ("" : String).length = 0 := rfl
  omega

/-- Claim C1, counterexample: with the auth key `tskey-abc123` configured,
the `apply_settings` path of the config service logs a message (the
`Running: ...` line) that contains the auth key verbatim, so the claim that
no logged command representation of the login / apply-settings paths
contains the key is false. -/
theorem apply_settings_logs_contain_authkey :
    (apply_settings_logs leakCfg okRunner).any
      (fun m => containsSub m "tskey-abc123") = true := by decide

/-- Claim C1, amended: only the login path of `TailscaleService` redacts.
For every configuration whose stripped auth key starts with `tskey-`, the
redacted argv joined into the login log line does not contain the key as
an element, and that redacted log line is what `login` actually emits; the
`apply_settings` path of the config service, by contrast, logs the full
command including the key (see the counterexample). -/
theorem login_log_redacts_tskey_arguments (p : Paths) (s : Settings)
    (se : StatusEnv) (ru : Except PyExn RunResult)
    (hkey : pyStartsWith (pyStrip s.auth_key) "tskey-" = true) :
    pyStrip s.auth_key ∉ loginRedactedArgv p s ∧
    Effect.logMsg ("[Tailscale] Logging in with command: " ++
        joinSp (loginRedactedArgv p s))
      ∈ (login ⟨p, s, se, ru⟩).2 := by
  constructor
  · intro hmem
    have := List.of_mem_filter hmem
    simp [hkey] at this
  · cases ru with
    | error e => simp [login, loginRedactedArgv]
    | ok res =>
      by_cases hr : res.returncode = 0
      · simp [login, loginRedactedArgv, hr]
      · simp [login, loginRedactedArgv, hr]

/-- Witness for C1 at the auth key `tskey-abc123`. -/
theorem login_log_redacts_tskey_arguments_witness :
    pyStrip tskeySettings.auth_key ∉ loginRedactedArgv pathsX tskeySettings ∧
    Effect.logMsg ("[Tailscale] Logging in with command: " ++
        joinSp (loginRedactedArgv pathsX tskeySettings))
      ∈ (login ⟨pathsX, tskeySettings, needsLoginStatusEnv, .ok ⟨0, "", ""⟩⟩).2 :=
  login_log_redacts_tskey_arguments pathsX tskeySettings needsLoginStatusEnv
    (.ok ⟨0, "", ""⟩) (by decide)

/-- Claim C2, counterexample: with `BackendState = NeedsLogin`, no auth key
configured and `auto_login = true`, `authenticate_if_needed` invokes the
login command once (`tailscale up` runs without an auth key), instead of
returning the manual-authentication outcome with zero invocations. -/
theorem authenticate_no_key_auto_login_invokes_up :
    get_tailscale_status needsLoginNoKeyEnv.statusEnv = some ⟨true, some "NeedsLogin"⟩ ∧
    needsLoginNoKeyEnv.settings.auth_key = "" ∧
    loginInvocations (authenticate_if_needed needsLoginNoKeyEnv) = 1 :=
  ⟨rfl, rfl, by decide⟩

/-- Claim C2, amended: the decision is keyed on the `auto_login` setting,
not on auth-key presence.  With `BackendState = NeedsLogin` and `auto_login`
not equal to `true`, the step performs zero login invocations and surfaces
the manual-authentication notification; with `auto_login = true` the login
command is invoked even when no auth key is configured. -/
theorem authenticate_needsLogin_auto_login_off_manual (env : Env) (st : PyStatus)
    (hst : get_tailscale_status env.statusEnv = some st)
    (ht : st.truthy = true)
    (hbs : st.backendState = some "NeedsLogin")
    (hal : env.settings.auto_login ≠ "true") :
    loginInvocations (authenticate_if_needed env) = 0 ∧
    authNotifyAction ∈ authenticate_if_needed env := by
  unfold authenticate_if_needed
  rw [hst]
  simp [ht, hbs, hal, loginInvocations, authNotifyAction]

/-- Witness for C2: `auto_login = false`, `NeedsLogin` backend state. -/
theorem authenticate_needsLogin_auto_login_off_manual_witness :
    loginInvocations (authenticate_if_needed manualAuthEnv) = 0 ∧
    authNotifyAction ∈ authenticate_if_needed manualAuthEnv :=
  authenticate_needsLogin_auto_login_off_manual manualAuthEnv
    ⟨true, some "NeedsLogin"⟩ rfl rfl rfl (by decide)

/-- Claim C3, counterexample: a tick in which the restart fails (the
respawned daemon dies within the grace window, `start_tailscaled` returns
`False`) does not exit the loop — the failed restart is not a terminal
failure, contradicting the claim. -/
theorem runTick_failed_restart_continues_loop :
    (runTick tickFailedRestart).restartResult = some false ∧
    (runTick tickFailedRestart).exitLoop = false :=
  ⟨by decide, by decide⟩

/-- Claim C3, amended: in the restart state the supervisor proceeds to the
authentication step and keeps looping regardless of the restart result,
which it discards; restart failure inside the loop is never terminal. -/
theorem runTick_restart_always_reauthenticates (t : TickEnv)
    (hw : t.abortOnWait = false) (ha : t.alive = false) :
    (runTick t).exitLoop = false ∧
    (runTick t).restartResult =
      some (start_tailscaled t.paths t.settings t.aliveInStart t.spawn).1 ∧
    (runTick t).effects = [.logMsg "[Tailscale] Daemon died, restarting"] ++
      (start_tailscaled t.paths t.settings t.aliveInStart t.spawn).2 ++
      authenticate_if_needed ⟨t.paths, t.settings, t.statusEnv, t.runUp⟩ := by
  simp [runTick, hw, ha]

/-- Witness for C3 at a tick with a successful restart. -/
theorem runTick_restart_always_reauthenticates_witness :
    (runTick tickDead).exitLoop = false ∧
    (runTick tickDead).restartResult =
      some (start_tailscaled tickDead.paths tickDead.settings
              tickDead.aliveInStart tickDead.spawn).1 ∧
    (runTick tickDead).effects = [.logMsg "[Tailscale] Daemon died, restarting"] ++
      (start_tailscaled tickDead.paths tickDead.settings
         tickDead.aliveInStart tickDead.spawn).2 ++
      authenticate_if_needed
        ⟨tickDead.paths, tickDead.settings, tickDead.statusEnv, tickDead.runUp⟩ :=
  runTick_restart_always_reauthenticates tickDead rfl rfl

/-- Claim C4, counterexample: when the graceful stop times out
(`wait(timeout=10)` raises), `stop_tailscale` performs no forced kill — the
`TimeoutExpired` is swallowed by the bare `except` and the child stays
alive — contradicting the claimed escalation. -/
theorem stop_tailscale_timeout_sends_no_kill :
    stop_tailscale (.running false) = (.running false, [.terminate, .wait], none) ∧
    StopAction.kill ∉ (stop_tailscale (.running false)).2.1 :=
  ⟨by decide, by decide⟩

/-- Claim C4, amended: with a live owned child, `stop_tailscale` sends the
graceful-terminate signal first and waits up to the 10-second timeout, but
it never escalates to a forced kill and never reports an error: on timeout
the exception is suppressed and the child may remain running. -/
theorem stop_tailscale_terminate_wait_no_escalation (b : Bool) :
    (stop_tailscale (.running b)).2.1.head? = some .terminate ∧
    StopAction.wait ∈ (stop_tailscale (.running b)).2.1 ∧
    StopAction.kill ∉ (stop_tailscale (.running b)).2.1 ∧
    (stop_tailscale (.running b)).2.2 = none := by
  cases b <;> decide

/-- Witness for C4 at the timed-out case. -/
theorem stop_tailscale_terminate_wait_no_escalation_witness :
    (stop_tailscale (.running false)).2.1.head? = some .terminate ∧
    StopAction.wait ∈ (stop_tailscale (.running false)).2.1 ∧
    StopAction.kill ∉ (stop_tailscale (.running false)).2.1 ∧
    (stop_tailscale (.running false)).2.2 = none :=
  stop_tailscale_terminate_wait_no_escalation false

/-- Claim C5 (confirmed): whenever the status command ran but exited
non-zero, or its stdout fails to parse as JSON, `get_tailscale_status`
returns `None`; the `except Exception` clause guarantees no exception
escapes (the translation has no error channel at all). -/
theorem get_tailscale_status_failure_returns_none (env : StatusEnv)
    (res : RunResult) (hrun : env.runStatus = .ok res)
    (hbad : res.returncode ≠ 0 ∨ ∃ e, env.jsonLoads res.stdout = .error e) :
    get_tailscale_status env = none := by
  unfold get_tailscale_status get_tailscale_status_body
  rcases hbad with h | ⟨e, he⟩
  · simp [hrun, h, bind, Except.bind, pure, Except.pure]
  · by_cases hr : res.returncode = 0
    · simp [hrun, hr, he, bind, Except.bind, pure, Except.pure]
    · simp [hrun, hr, bind, Except.bind, pure, Except.pure]

/-- Witness for C5 at malformed JSON output. -/
theorem get_tailscale_status_failure_returns_none_witness :
    get_tailscale_status malformedStatusEnv = none :=
  get_tailscale_status_failure_returns_none malformedStatusEnv
    ⟨0, "\x7bnot valid", ""⟩ rfl (Or.inr ⟨.jsonDecodeError, rfl⟩)

/-- Claim C6 (confirmed): when the probed status reports
`BackendState = Running`, `authenticate_if_needed` performs zero
invocations of the login command. -/
theorem authenticate_running_never_invokes_login (env : Env) (st : PyStatus)
    (hst : get_tailscale_status env.statusEnv = some st)
    (hbs : st.backendState = some "Running") :
    loginInvocations (authenticate_if_needed env) = 0 := by
  unfold authenticate_if_needed
  rw [hst]
  by_cases ht : st.truthy
  · simp [ht, hbs, loginInvocations]
  · simp [ht, loginInvocations]

/-- Witness for C6 at a `Running` status snapshot. -/
theorem authenticate_running_never_invokes_login_witness :
    loginInvocations (authenticate_if_needed runningEnv) = 0 :=
  authenticate_running_never_invokes_login runningEnv
    ⟨true, some "Running"⟩ rfl rfl

/-- Claim C7 (confirmed): `stop_tailscale` never reports an error — in
particular a second call right after a first one does not — and it is a
pure no-op (no actions, no error) when no process is owned. -/
theorem stop_tailscale_idempotent_and_noop (st : ProcState) :
    (stop_tailscale st).2.2 = none ∧
    (stop_tailscale ((stop_tailscale st).1)).2.2 = none ∧
    stop_tailscale .noProcess = (.noProcess, [], none) := by
  cases st with
  | running b => cases b <;> decide
  | noProcess => decide
  | exited => decide

/-- Witness for C7 at the timed-out-running state. -/
theorem stop_tailscale_idempotent_and_noop_witness :
    (stop_tailscale (.running false)).2.2 = none ∧
    (stop_tailscale ((stop_tailscale (.running false)).1)).2.2 = none ∧
    stop_tailscale .noProcess = (.noProcess, [], none) :=
  stop_tailscale_idempotent_and_noop (.running false)

/-- Claim C8 (confirmed): a tick that is not aborted and finds the daemon
dead calls `start_tailscaled` exactly once — never zero times and never
more than once. -/
theorem runTick_dead_daemon_one_start_call (t : TickEnv)
    (hw : t.abortOnWait = false) (ha : t.alive = false) :
    (runTick t).startCalls = 1 := by
  simp [runTick, hw, ha]

/-- Witness for C8 at a concrete dead-daemon tick. -/
theorem runTick_dead_daemon_one_start_call_witness :
    (runTick tickDead).startCalls = 1 :=
  runTick_dead_daemon_one_start_call tickDead rfl rfl

/-- Claim C9 (confirmed): with an empty `daemon_port` setting the daemon is
spawned with the literal argument `--port=`, and the `or`-fallback `41641`
is unreachable for every setting value, because the concatenation binds
tighter than `or` and always yields a non-empty (truthy) string. -/
theorem startCmd_empty_port_gives_literal_port_flag (p : Paths) (s : Settings)
    (h : s.daemon_port = "") :
    startCmd p s = [p.tailscaled_bin,
      "--state=" ++ pathJoin p.state_dir "tailscaled.state",
      "--socket=" ++ pathJoin p.state_dir "tailscaled.sock",
      "--port="] ∧
    ∀ port : String, pyOrStr ("--port=" ++ port) "41641" = "--port=" ++ port := by
  constructor
  · simp [startCmd, pyOrStr, h]
  · intro port
    simp [pyOrStr, append_port_ne_empty port]

/-- Witness for C9 at an empty port setting (and the fallback check at a
non-empty one). -/
theorem startCmd_empty_port_gives_literal_port_flag_witness :
    startCmd pathsX autoNoKeySettings = [pathsX.tailscaled_bin,
      "--state=" ++ pathJoin pathsX.state_dir "tailscaled.state",
      "--socket=" ++ pathJoin pathsX.state_dir "tailscaled.sock",
      "--port="] ∧
    pyOrStr ("--port=" ++ "55") "41641" = "--port=" ++ "55" :=
  ⟨(startCmd_empty_port_gives_literal_port_flag pathsX autoNoKeySettings rfl).1,
   (startCmd_empty_port_gives_literal_port_flag pathsX autoNoKeySettings rfl).2 "55"⟩

/-- Claim C10 (confirmed): the saved wizard configuration is exactly the
five fields server URL, username, hostname, completion flag and date — in
particular it does not depend on the Jellyfin password or the Tailscale
auth key at all. -/
theorem save_config_independent_of_secrets
    (js ju jp tk dh date jp2 tk2 : String) :
    save_config ⟨js, ju, jp, tk, dh⟩ date = save_config ⟨js, ju, jp2, tk2, dh⟩ date ∧
    (save_config ⟨js, ju, jp, tk, dh⟩ date).map Prod.fst =
      ["jellyfin_server", "jellyfin_username", "device_hostname",
       "setup_completed", "setup_date"] :=
  ⟨rfl, rfl⟩

/-- Witness for C10 at concrete values: two configurations differing only
in the password and the auth key produce identical files. -/
theorem save_config_independent_of_secrets_witness :
    save_config ⟨"http://jf:8096", "alice", "pw-one", "tskey-one", "pi"⟩ "2026-10-12" =
      save_config ⟨"http://jf:8096", "alice", "pw-two", "tskey-two", "pi"⟩ "2026-10-12" ∧
    (save_config ⟨"http://jf:8096", "alice", "pw-one", "tskey-one", "pi"⟩ "2026-10-12").map
        Prod.fst =
      ["jellyfin_server", "jellyfin_username", "device_hostname",
       "setup_completed", "setup_date"] :=
  save_config_independent_of_secrets "http://jf:8096" "alice" "pw-one" "tskey-one"
    "pi" "2026-10-12" "pw-two" "tskey-two"
